import Mathlib

/-!
Verification of the SPIFFE identity-validation engine of this repository
(`pkg/common/idutil/spiffeid.go`) and of the disk upstream-CA signing
contract exercised by `pkg/server/plugin/upstreamca/disk/disk_test.go`.

The Go code is shallowly embedded: Go's `url.URL` struct becomes the
`Url` structure below, errors become an inductive type whose
constructors correspond one-to-one to the distinct `fmt.Errorf` format
strings of the source, and a nil `*url.URL` argument is modelled as
`Option Url`.  Go strings are modelled as Lean `String`/`List Char`;
every string literal compared against by the source is ASCII, where
byte-level (Go) and character-level (Lean) operations coincide.
-/

set_option autoImplicit false

namespace Spire

/-- Embedding of Go's `url.URL` struct (net/url, Go 1.10 era: fields
`Scheme`, `Opaque`, `User`, `Host`, `Path`, `RawPath`, `ForceQuery`,
`RawQuery`, `Fragment`).  The `User *Userinfo` pointer is tracked only
through its nil-ness (`hasUser`), which is all `spiffeid.go` and the
zero-value comparison observe. -/
structure Url where
  scheme : String
  Opaque : String
  hasUser : Bool
  host : String
  path : String
  rawPath : String
  forceQuery : Bool
  rawQuery : String
  fragment : String
deriving DecidableEq, Repr

/-- The zero value `url.URL{}`. -/
def Url.zero : Url :=
  { scheme := "", Opaque := "", hasUser := false, host := "", path := "",
    rawPath := "", forceQuery := false, rawQuery := "", fragment := "" }

/-- Splits a list at the last occurrence of `c`: returns the parts
before and after that occurrence, or `none` when `c` does not occur.
Used to embed `strings.LastIndexByte`-style logic; `':'` is a
single-byte character, so the last byte index and the last character
index coincide. -/
def splitAtLast (c : Char) : List Char → Option (List Char × List Char)
  | [] => none
  | x :: xs =>
    match splitAtLast c xs with
    | some (pre, post) => some (x :: pre, post)
    | none => if x = c then some ([], xs) else none

/-- Embedding of Go's `strings.HasPrefix`.  Byte-level (Go) and
character-level (Lean) prefix tests agree because UTF-8 is
self-synchronizing and injective. -/
def hasPrefixStr (pre s : String) : Bool :=
  List.isPrefixOf pre.toList s.toList

/-- Embedding of `(*url.URL).Port()` / `splitHostPort` from net/url:
the suffix of `Host` after the last `':'` is the port when it is all
decimal digits; otherwise the port is empty. -/
def Url.port (u : Url) : String :=
  match splitAtLast ':' u.host.toList with
  | none => ""
  | some (_, post) =>
    if post.all (fun ch => '0' ≤ ch ∧ ch ≤ '9') then String.mk post else ""

/-- The `idType` enumeration of `spiffeid.go` (`anyId iota`, ...);
Go's `idType` is an `int`, embedded as `Int` so that out-of-range
selectors (claim C7) are representable. -/
def anyId : Int := 0

def trustDomainId : Int := 1

def workloadId : Int := 2

def agentId : Int := 3

def serverId : Int := 4

/-- The reason part of a validation error: one constructor per distinct
format string passed to `validationError` in `ValidateSpiffeIDURL`. -/
inductive Reason where
  | empty
  | invalidScheme
  | userInfoNotAllowed
  | emptyTrustDomainHost
  | portNotAllowed
  | fragmentNotAllowed
  | queryNotAllowed
  | pathNotEmpty
  | pathEmpty
  | reservedPath
  | expectingServerPath
  | expectingAgentPath
  | internalUnhandled (t : Int)
deriving DecidableEq, Repr

/-- The errors `ValidateSpiffeIDURL` can return, one constructor per
distinct error-construction site:
* `validation id kind r` — the `validationError` closure:
  format `"%q is not a valid %sSPIFFE ID: ..."`, carrying
  `id.String()` (here the `Url` value itself), the kind string computed
  from `options.idType`, and the reason;
* `emptyTrustDomainTarget` — `errors.New("trust domain to validate
  against cannot be empty")`, a constant carrying no identity;
* `domainMismatch id td` — `fmt.Errorf("%q does not belong to trust
  domain %q", id, options.trustDomain)`. -/
inductive VErr where
  | validation (id : Url) (kind : String) (r : Reason)
  | emptyTrustDomainTarget
  | domainMismatch (id : Url) (trustDomain : String)
deriving DecidableEq, Repr

/-- Outcome of running `ValidateSpiffeIDURL`.  `crash` models a Go
runtime panic (nil-pointer dereference), which the function can hit
when formatting an error for a nil `*url.URL` (see claim C10). -/
inductive VResult where
  | ok
  | err (e : VErr)
  | crash
deriving DecidableEq, Repr

/-- `validationOptions` struct of `spiffeid.go`. -/
structure validationOptions where
  trustDomain : String
  trustDomainRequired : Bool
  idType : Int
deriving DecidableEq, Repr

/-- The sole `ValidationMode` implementation, struct `validationMode`. -/
structure validationMode where
  options : validationOptions
deriving DecidableEq, Repr

/-- Method `validationOptions()` on `validationMode`. -/
def validationMode.validationOptions (m : validationMode) : validationOptions :=
  m.options

/-- The kind string chosen by the `switch options.idType` inside the
`validationError` closure (no case for `anyId` or out-of-range values,
so those yield `""`). -/
def kindOf (t : Int) : String :=
  if t = trustDomainId then "trust domain "
  else if t = workloadId then "workload "
  else if t = serverId then "server "
  else if t = agentId then "agent "
  else ""

/-- The `validationError` closure of `ValidateSpiffeIDURL`.  It formats
`id.String()`; calling `String()` on a nil `*url.URL` dereferences nil
and panics, which the model records as `crash`. -/
def validationError (id : Option Url) (t : Int) (r : Reason) : VResult :=
  match id with
  | none => VResult.crash
  | some u => VResult.err (VErr.validation u (kindOf t) r)

/-- `isReservedPath` from `spiffeid.go`:
`path == "/spire" || strings.HasPrefix(path, "/spire/")`. -/
def isReservedPath (path : String) : Bool :=
  path = "/spire" || hasPrefixStr "/spire/" path

/-- `isServerPath` from `spiffeid.go`: `path == "/spire/server"`. -/
def isServerPath (path : String) : Bool :=
  path = "/spire/server"

/-- `isAgentPath` from `spiffeid.go`:
`strings.HasPrefix(path, "/spire/agent/")`. -/
def isAgentPath (path : String) : Bool :=
  hasPrefixStr "/spire/agent/" path

/-- Embedding of `ValidateSpiffeIDURL` from `spiffeid.go`, translated
check for check and in source order: emptiness (`id == nil || *id ==
url.URL{}`), then the general-validation `switch` (scheme, user info,
host, port, fragment, query), then the trust-domain block, then the
`switch options.idType` identity-class block. -/
def ValidateSpiffeIDURL (id : Option Url) (mode : validationMode) : VResult :=
  let options := mode.validationOptions
  match id with
  | none => validationError id options.idType Reason.empty
  | some u =>
    if u = Url.zero then validationError id options.idType Reason.empty
    else if u.scheme ≠ "spiffe" then validationError id options.idType Reason.invalidScheme
    else if u.hasUser then validationError id options.idType Reason.userInfoNotAllowed
    else if u.host = "" then validationError id options.idType Reason.emptyTrustDomainHost
    else if u.port ≠ "" then validationError id options.idType Reason.portNotAllowed
    else if u.fragment ≠ "" then validationError id options.idType Reason.fragmentNotAllowed
    else if u.rawQuery ≠ "" then validationError id options.idType Reason.queryNotAllowed
    else if options.trustDomainRequired ∧ options.trustDomain = "" then
      VResult.err VErr.emptyTrustDomainTarget
    else if options.trustDomainRequired ∧ u.host ≠ options.trustDomain then
      VResult.err (VErr.domainMismatch u options.trustDomain)
    else if options.idType = anyId then VResult.ok
    else if options.idType = trustDomainId then
      if u.path ≠ "" then validationError id options.idType Reason.pathNotEmpty
      else VResult.ok
    else if options.idType = workloadId then
      if u.path = "" then validationError id options.idType Reason.pathEmpty
      else if isReservedPath u.path then validationError id options.idType Reason.reservedPath
      else VResult.ok
    else if options.idType = serverId then
      if u.path = "" then validationError id options.idType Reason.pathEmpty
      else if ¬ isServerPath u.path then validationError id options.idType Reason.expectingServerPath
      else VResult.ok
    else if options.idType = agentId then
      if u.path = "" then validationError id options.idType Reason.pathEmpty
      else if ¬ isAgentPath u.path then validationError id options.idType Reason.expectingAgentPath
      else VResult.ok
    else validationError id options.idType (Reason.internalUnhandled options.idType)

/-- Factory `AllowAny()`: the zero `validationMode`. -/
def AllowAny : validationMode :=
  { options := { trustDomain := "", trustDomainRequired := false, idType := anyId } }

/-- Factory `AllowAnyInTrustDomain(trustDomain)`. -/
def AllowAnyInTrustDomain (trustDomain : String) : validationMode :=
  { options := { trustDomain := trustDomain, trustDomainRequired := true, idType := anyId } }

/-- Factory `AllowTrustDomain(trustDomain)`. -/
def AllowTrustDomain (trustDomain : String) : validationMode :=
  { options := { trustDomain := trustDomain, trustDomainRequired := true, idType := trustDomainId } }

/-- Factory `AllowTrustDomainWorkload(trustDomain)`. -/
def AllowTrustDomainWorkload (trustDomain : String) : validationMode :=
  { options := { trustDomain := trustDomain, trustDomainRequired := true, idType := workloadId } }

/-- Factory `AllowTrustDomainServer(trustDomain)`. -/
def AllowTrustDomainServer (trustDomain : String) : validationMode :=
  { options := { trustDomain := trustDomain, trustDomainRequired := true, idType := serverId } }

/-- Factory `AllowTrustDomainAgent(trustDomain)`. -/
def AllowTrustDomainAgent (trustDomain : String) : validationMode :=
  { options := { trustDomain := trustDomain, trustDomainRequired := true, idType := agentId } }

/-- Factory `AllowAnyTrustDomain()`. -/
def AllowAnyTrustDomain : validationMode :=
  { options := { trustDomain := "", trustDomainRequired := false, idType := trustDomainId } }

/-- Factory `AllowAnyTrustDomainWorkload()`. -/
def AllowAnyTrustDomainWorkload : validationMode :=
  { options := { trustDomain := "", trustDomainRequired := false, idType := workloadId } }

/-- Factory `AllowAnyTrustDomainServer()`. -/
def AllowAnyTrustDomainServer : validationMode :=
  { options := { trustDomain := "", trustDomainRequired := false, idType := serverId } }

/-- Factory `AllowAnyTrustDomainAgent()`. -/
def AllowAnyTrustDomainAgent : validationMode :=
  { options := { trustDomain := "", trustDomainRequired := false, idType := agentId } }

/-- Spec-side predicate: the identity passes all the structural checks
of §4.1 of the spec (the "General validation" block plus non-emptiness):
scheme is `spiffe`, no user info, non-empty host, no port, no fragment,
no query, and the value is not the zero URL. -/
def structurallyWellFormed (u : Url) : Prop :=
  u ≠ Url.zero ∧ u.scheme = "spiffe" ∧ u.hasUser = false ∧ u.host ≠ "" ∧
    u.port = "" ∧ u.fragment = "" ∧ u.rawQuery = ""

instance (u : Url) : Decidable (structurallyWellFormed u) := by
  unfold structurallyWellFormed; infer_instance

/-- Spec-side helper (§4.2 "first failure short-circuits"): a check
either passes (`none`) or fails with a result (`some r`). -/
def check (b : Prop) [Decidable b] (r : VResult) : Option VResult :=
  if b then some r else none

/-- Spec-side: the result of the first failing check in a list, `ok`
when every check passes.  Later entries of the list are irrelevant once
an earlier check has failed. -/
def firstFailure : List (Option VResult) → VResult
  | [] => VResult.ok
  | some r :: _ => r
  | none :: rest => firstFailure rest

/-- Spec-side: the identity-class check of §4.2 step 3, branching on
the mode's class selector, as a single pass/fail check. -/
def idClassCheck (options : validationOptions) (u : Url) : Option VResult :=
  if options.idType = anyId then none
  else if options.idType = trustDomainId then
    check (u.path ≠ "") (VResult.err (VErr.validation u (kindOf options.idType) Reason.pathNotEmpty))
  else if options.idType = workloadId then
    if u.path = "" then some (VResult.err (VErr.validation u (kindOf options.idType) Reason.pathEmpty))
    else check (isReservedPath u.path) (VResult.err (VErr.validation u (kindOf options.idType) Reason.reservedPath))
  else if options.idType = serverId then
    if u.path = "" then some (VResult.err (VErr.validation u (kindOf options.idType) Reason.pathEmpty))
    else check (¬ isServerPath u.path) (VResult.err (VErr.validation u (kindOf options.idType) Reason.expectingServerPath))
  else if options.idType = agentId then
    if u.path = "" then some (VResult.err (VErr.validation u (kindOf options.idType) Reason.pathEmpty))
    else check (¬ isAgentPath u.path) (VResult.err (VErr.validation u (kindOf options.idType) Reason.expectingAgentPath))
  else some (VResult.err (VErr.validation u (kindOf options.idType) (Reason.internalUnhandled options.idType)))

/-- Spec-side: the full check sequence of §4.2 in its stated order —
emptiness, scheme, user info, non-empty host, port, fragment, query,
trust-domain configuration, trust-domain match, identity class. -/
def orderedChecks (u : Url) (options : validationOptions) : List (Option VResult) :=
  [ check (u = Url.zero) (VResult.err (VErr.validation u (kindOf options.idType) Reason.empty)),
    check (u.scheme ≠ "spiffe") (VResult.err (VErr.validation u (kindOf options.idType) Reason.invalidScheme)),
    check (u.hasUser = true) (VResult.err (VErr.validation u (kindOf options.idType) Reason.userInfoNotAllowed)),
    check (u.host = "") (VResult.err (VErr.validation u (kindOf options.idType) Reason.emptyTrustDomainHost)),
    check (u.port ≠ "") (VResult.err (VErr.validation u (kindOf options.idType) Reason.portNotAllowed)),
    check (u.fragment ≠ "") (VResult.err (VErr.validation u (kindOf options.idType) Reason.fragmentNotAllowed)),
    check (u.rawQuery ≠ "") (VResult.err (VErr.validation u (kindOf options.idType) Reason.queryNotAllowed)),
    check (options.trustDomainRequired = true ∧ options.trustDomain = "") (VResult.err VErr.emptyTrustDomainTarget),
    check (options.trustDomainRequired = true ∧ u.host ≠ options.trustDomain) (VResult.err (VErr.domainMismatch u options.trustDomain)),
    idClassCheck options u ]

/-- The five class selectors actually enumerated by the source. -/
def knownIdType (t : Int) : Prop :=
  t = anyId ∨ t = trustDomainId ∨ t = workloadId ∨ t = agentId ∨ t = serverId

instance (t : Int) : Decidable (knownIdType t) := by
  unfold knownIdType; infer_instance

/-- A result is the internal "unhandled id type" error (the only error
whose message contains `"internal error"`); every input-driven failure
yields `false` here. -/
def isInternalResult : VResult → Bool
  | VResult.err (VErr.validation _ _ (Reason.internalUnhandled _)) => true
  | _ => false

theorem validationError_ne_ok (id : Option Url) (t : Int) (r : Reason) :
    validationError id t r ≠ VResult.ok := by
  cases id <;> simp [validationError]

theorem bool_ne_true {b : Bool} (h : b = false) : ¬ b = true := by
  simp [h]

/-- A structurally well-formed SPIFFE identity URL used in witnesses:
`spiffe://example.com/spire/agent/x`. -/
def agentUrl : Url :=
  { scheme := "spiffe", Opaque := "", hasUser := false, host := "example.com",
    path := "/spire/agent/x", rawPath := "", forceQuery := false, rawQuery := "", fragment := "" }

/-- `spiffe://example.com/spire/server`. -/
def serverUrl : Url :=
  { scheme := "spiffe", Opaque := "", hasUser := false, host := "example.com",
    path := "/spire/server", rawPath := "", forceQuery := false, rawQuery := "", fragment := "" }

/-- `spiffe://example.com/spire/serverX`. -/
def serverXUrl : Url :=
  { scheme := "spiffe", Opaque := "", hasUser := false, host := "example.com",
    path := "/spire/serverX", rawPath := "", forceQuery := false, rawQuery := "", fragment := "" }

/-- `spiffe://example.com/spirex` — its path starts with the string
`/spire` but is neither `/spire` nor under `/spire/`. -/
def spirexUrl : Url :=
  { scheme := "spiffe", Opaque := "", hasUser := false, host := "example.com",
    path := "/spirex", rawPath := "", forceQuery := false, rawQuery := "", fragment := "" }

/-- A structurally malformed identity: `http://example.com/x`. -/
def httpUrl : Url :=
  { scheme := "http", Opaque := "", hasUser := false, host := "example.com",
    path := "/x", rawPath := "", forceQuery := false, rawQuery := "", fragment := "" }

/-- C1 (counterexample): the claim says workload validation fails for
every path that starts with `"/spire"`, but
`spiffe://example.com/spirex` — whose path `/spirex` does start with
the string `/spire` — validates successfully under
`AllowTrustDomainWorkload "example.com"`, because `isReservedPath`
only rejects the exact path `/spire` and paths under `/spire/`. -/
theorem workload_accepts_spirex :
    ValidateSpiffeIDURL (some spirexUrl) (AllowTrustDomainWorkload "example.com") = VResult.ok ∧
    hasPrefixStr "/spire" spirexUrl.path = true := by
  constructor <;> decide

set_option maxHeartbeats 2000000 in
/-- C1 (amended): validation under `AllowTrustDomainWorkload D`
succeeds iff the identity is structurally well-formed, its trust
domain equals `D`, its path is non-empty, and its path is neither
exactly `/spire` nor starts with `/spire/`. -/
theorem workload_in_domain_ok_iff (u : Url) (D : String) :
    ValidateSpiffeIDURL (some u) (AllowTrustDomainWorkload D) = VResult.ok ↔
      (structurallyWellFormed u ∧ u.host = D ∧ u.path ≠ "" ∧
        u.path ≠ "/spire" ∧ hasPrefixStr "/spire/" u.path = false) := by
  rw [ValidateSpiffeIDURL]
  simp only [AllowTrustDomainWorkload, validationMode.validationOptions, validationError,
    anyId, trustDomainId, workloadId, serverId, agentId, isReservedPath,
    ne_eq, ite_not, true_and, Bool.or_eq_true, decide_eq_true_eq, Int.reduceEq,
    if_true, if_false, reduceIte]
  rcases eq_or_ne u Url.zero with h1 | h1
  · rw [if_pos h1]
    exact iff_of_false (fun h => VResult.noConfusion h) (fun h => h.1.1 h1)
  · rw [if_neg h1]
    split_ifs with h2 h3 h4 h5 h6 h7 h8 h9 h10 h11 <;>
      simp_all [structurallyWellFormed]
    exact fun hne => h11.resolve_left hne

/-- A non-empty `/spire/agent/`-style path is in particular non-empty. -/
theorem agentPath_ne_empty (s : String) (h : hasPrefixStr "/spire/agent/" s = true) :
    s ≠ "" := by
  intro heq
  rw [heq] at h
  exact absurd h (by decide)

set_option maxHeartbeats 2000000 in
/-- C3: `ValidateSpiffeIDURL` evaluates its checks in the fixed order
emptiness, scheme, user info, non-empty host, port, fragment, query,
trust-domain configuration, trust-domain match, identity class, and
returns the result of the first failing check (later checks are never
reached, as `firstFailure` discards everything after the first
failure). -/
theorem validate_runs_checks_in_order (u : Url) (m : validationMode) :
    ValidateSpiffeIDURL (some u) m = firstFailure (orderedChecks u m.options) := by
  rw [ValidateSpiffeIDURL]
  simp only [orderedChecks, idClassCheck, check, validationMode.validationOptions,
    validationError]
  by_cases h1 : u = Url.zero
  · rw [if_pos h1, if_pos h1]; simp only [firstFailure]
  · rw [if_neg h1, if_neg h1]
    by_cases h2 : u.scheme ≠ "spiffe"
    · rw [if_pos h2, if_pos h2]; simp only [firstFailure]
    · rw [if_neg h2, if_neg h2]
      by_cases h3 : u.hasUser = true
      · rw [if_pos h3, if_pos h3]; simp only [firstFailure]
      · rw [if_neg h3, if_neg h3]
        by_cases h4 : u.host = ""
        · rw [if_pos h4, if_pos h4]; simp only [firstFailure]
        · rw [if_neg h4, if_neg h4]
          by_cases h5 : u.port ≠ ""
          · rw [if_pos h5, if_pos h5]; simp only [firstFailure]
          · rw [if_neg h5, if_neg h5]
            by_cases h6 : u.fragment ≠ ""
            · rw [if_pos h6, if_pos h6]; simp only [firstFailure]
            · rw [if_neg h6, if_neg h6]
              by_cases h7 : u.rawQuery ≠ ""
              · rw [if_pos h7, if_pos h7]; simp only [firstFailure]
              · rw [if_neg h7, if_neg h7]
                by_cases h8 : m.options.trustDomainRequired = true ∧ m.options.trustDomain = ""
                · rw [if_pos h8, if_pos h8]; simp only [firstFailure]
                · rw [if_neg h8, if_neg h8]
                  by_cases h9 : m.options.trustDomainRequired = true ∧ u.host ≠ m.options.trustDomain
                  · rw [if_pos h9, if_pos h9]; simp only [firstFailure]
                  · rw [if_neg h9, if_neg h9]
                    simp only [firstFailure]
                    by_cases t0 : m.options.idType = anyId
                    · rw [if_pos t0, if_pos t0]; simp only [firstFailure]
                    · rw [if_neg t0, if_neg t0]
                      by_cases t1 : m.options.idType = trustDomainId
                      · rw [if_pos t1, if_pos t1]
                        by_cases p1 : u.path ≠ ""
                        · rw [if_pos p1, if_pos p1]; simp only [firstFailure]
                        · rw [if_neg p1, if_neg p1]; simp only [firstFailure]
                      · rw [if_neg t1, if_neg t1]
                        by_cases t2 : m.options.idType = workloadId
                        · rw [if_pos t2, if_pos t2]
                          by_cases p2 : u.path = ""
                          · rw [if_pos p2, if_pos p2]; simp only [firstFailure]
                          · rw [if_neg p2, if_neg p2]
                            by_cases r2 : isReservedPath u.path = true
                            · rw [if_pos r2, if_pos r2]; simp only [firstFailure]
                            · rw [if_neg r2, if_neg r2]; simp only [firstFailure]
                        · rw [if_neg t2, if_neg t2]
                          by_cases t3 : m.options.idType = serverId
                          · rw [if_pos t3, if_pos t3]
                            by_cases p3 : u.path = ""
                            · rw [if_pos p3, if_pos p3]; simp only [firstFailure]
                            · rw [if_neg p3, if_neg p3]
                              by_cases r3 : ¬ isServerPath u.path = true
                              · rw [if_pos r3, if_pos r3]; simp only [firstFailure]
                              · rw [if_neg r3, if_neg r3]; simp only [firstFailure]
                          · rw [if_neg t3, if_neg t3]
                            by_cases t4 : m.options.idType = agentId
                            · rw [if_pos t4, if_pos t4]
                              by_cases p4 : u.path = ""
                              · rw [if_pos p4, if_pos p4]; simp only [firstFailure]
                              · rw [if_neg p4, if_neg p4]
                                by_cases r4 : ¬ isAgentPath u.path = true
                                · rw [if_pos r4, if_pos r4]; simp only [firstFailure]
                                · rw [if_neg r4, if_neg r4]; simp only [firstFailure]
                            · rw [if_neg t4, if_neg t4]; simp only [firstFailure]

set_option maxHeartbeats 2000000 in
/-- C4 (counterexample): the claim quantifies over every identity,
well-formed or not, but a malformed identity (`http://example.com/x`)
under the required-domain mode `AllowAnyInTrustDomain ""` fails with a
structural validation error that names the identity — not with the
configuration error — because the structural checks run first. -/
theorem malformed_id_beats_empty_domain_config_error :
    ValidateSpiffeIDURL (some httpUrl) (AllowAnyInTrustDomain "") =
      VResult.err (VErr.validation httpUrl "" Reason.invalidScheme) ∧
    VErr.validation httpUrl "" Reason.invalidScheme ≠ VErr.emptyTrustDomainTarget := by
  constructor
  · decide
  · intro h
    exact VErr.noConfusion h

set_option maxHeartbeats 2000000 in
/-- C4 (amended): for every *structurally well-formed* identity and
every mode that requires a trust-domain match with an empty configured
target, validation fails with the configuration error — a constant
that carries no identity and is distinct from both identity-naming
error shapes — regardless of the identity's own trust domain. -/
theorem empty_required_domain_config_error (u : Url) (m : validationMode)
    (hw : structurallyWellFormed u) (hreq : m.options.trustDomainRequired = true)
    (hempty : m.options.trustDomain = "") :
    ValidateSpiffeIDURL (some u) m = VResult.err VErr.emptyTrustDomainTarget ∧
    (∀ (idU : Url) (kind : String) (r : Reason),
        VErr.emptyTrustDomainTarget ≠ VErr.validation idU kind r) ∧
    (∀ (idU : Url) (td : String),
        VErr.emptyTrustDomainTarget ≠ VErr.domainMismatch idU td) := by
  obtain ⟨h1, h2, h3, h4, h5, h6, h7⟩ := hw
  refine ⟨?_, fun a b c h => VErr.noConfusion h, fun a b h => VErr.noConfusion h⟩
  rw [ValidateSpiffeIDURL]
  simp only [validationMode.validationOptions, validationError]
  rw [if_neg h1, if_neg (not_not_intro h2), if_neg (bool_ne_true h3), if_neg h4,
    if_neg (not_not_intro h5), if_neg (not_not_intro h6), if_neg (not_not_intro h7),
    if_pos ⟨hreq, hempty⟩]

/-- C4 (witness): the amended theorem applied to
`spiffe://example.com/spire/agent/x` under `AllowAnyInTrustDomain ""`. -/
theorem empty_required_domain_config_error_witness :
    ValidateSpiffeIDURL (some agentUrl) (AllowAnyInTrustDomain "") =
      VResult.err VErr.emptyTrustDomainTarget := by
  exact (empty_required_domain_config_error agentUrl (AllowAnyInTrustDomain "")
    (by decide) rfl rfl).1

set_option maxHeartbeats 2000000 in
/-- C5: under the server-class mode with matching trust domain, a
structurally well-formed identity validates iff its path is exactly
`/spire/server`. -/
theorem server_in_domain_ok_iff (u : Url) (D : String)
    (hw : structurallyWellFormed u) (hd : u.host = D) :
    ValidateSpiffeIDURL (some u) (AllowTrustDomainServer D) = VResult.ok ↔
      u.path = "/spire/server" := by
  obtain ⟨h1, h2, h3, h4, h5, h6, h7⟩ := hw
  rw [ValidateSpiffeIDURL]
  simp only [AllowTrustDomainServer, validationMode.validationOptions, validationError,
    anyId, trustDomainId, workloadId, serverId, agentId, isServerPath,
    ne_eq, ite_not, true_and, Bool.or_eq_true, decide_eq_true_eq, Int.reduceEq,
    if_true, if_false, reduceIte]
  rw [if_neg h1]
  split_ifs with h8 h9 h10 h11 <;> simp_all

set_option maxHeartbeats 2000000 in
/-- C5 (witness): `spiffe://example.com/spire/server` validates under
`AllowTrustDomainServer "example.com"` and
`spiffe://example.com/spire/serverX` does not. -/
theorem server_in_domain_ok_iff_witness :
    ValidateSpiffeIDURL (some serverUrl) (AllowTrustDomainServer "example.com") = VResult.ok ∧
    ValidateSpiffeIDURL (some serverXUrl) (AllowTrustDomainServer "example.com") ≠ VResult.ok := by
  constructor
  · exact (server_in_domain_ok_iff serverUrl "example.com" (by decide) (by decide)).mpr (by decide)
  · intro h
    exact absurd ((server_in_domain_ok_iff serverXUrl "example.com" (by decide) (by decide)).mp h)
      (by decide)

set_option maxHeartbeats 2000000 in
/-- C6: under the agent-class mode with required domain `D`, every
structurally well-formed identity in domain `D` whose path starts with
`/spire/agent/` validates, and a well-formed identity in a different
trust domain fails with the domain-mismatch error, which carries the
identity (hence its trust domain) and the required domain `D`. -/
theorem agent_in_domain_ok_and_mismatch (u : Url) (D : String)
    (hw : structurallyWellFormed u) (hD : D ≠ "") :
    (u.host = D → hasPrefixStr "/spire/agent/" u.path = true →
        ValidateSpiffeIDURL (some u) (AllowTrustDomainAgent D) = VResult.ok) ∧
    (u.host ≠ D →
        ValidateSpiffeIDURL (some u) (AllowTrustDomainAgent D) =
          VResult.err (VErr.domainMismatch u D)) := by
  obtain ⟨h1, h2, h3, h4, h5, h6, h7⟩ := hw
  constructor <;> intro hhost
  · intro hpath
    have hne : u.path ≠ "" := agentPath_ne_empty u.path hpath
    rw [ValidateSpiffeIDURL]
    simp only [AllowTrustDomainAgent, validationMode.validationOptions, validationError,
      anyId, trustDomainId, workloadId, serverId, agentId, isAgentPath,
      ne_eq, ite_not, true_and, Bool.or_eq_true, decide_eq_true_eq, Int.reduceEq,
      if_true, if_false, reduceIte]
    rw [if_neg h1]
    split_ifs with h8 <;> simp_all
  · rw [ValidateSpiffeIDURL]
    simp only [AllowTrustDomainAgent, validationMode.validationOptions, validationError,
      anyId, trustDomainId, workloadId, serverId, agentId, isAgentPath,
      ne_eq, ite_not, true_and, Bool.or_eq_true, decide_eq_true_eq, Int.reduceEq,
      if_true, if_false, reduceIte]
    rw [if_neg h1]
    split_ifs with h8 <;> simp_all

set_option maxHeartbeats 2000000 in
/-- C6 (witness): `spiffe://example.com/spire/agent/x` validates under
`AllowTrustDomainAgent "example.com"` and fails under
`AllowTrustDomainAgent "other.test"` with the mismatch error carrying
the identity and the required domain. -/
theorem agent_in_domain_witness :
    ValidateSpiffeIDURL (some agentUrl) (AllowTrustDomainAgent "example.com") = VResult.ok ∧
    ValidateSpiffeIDURL (some agentUrl) (AllowTrustDomainAgent "other.test") =
      VResult.err (VErr.domainMismatch agentUrl "other.test") := by
  constructor
  · exact (agent_in_domain_ok_and_mismatch agentUrl "example.com" (by decide)
      (by decide)).1 (by decide) (by decide)
  · exact (agent_in_domain_ok_and_mismatch agentUrl "other.test" (by decide)
      (by decide)).2 (by decide)

set_option maxHeartbeats 2000000 in
/-- C7: an identity-class selector outside the five known classes never
accepts any identity; for a well-formed identity that passes the
trust-domain stage it produces the internal "unhandled id type" error;
and under a known selector no run ever produces that internal error —
so the internal error is distinguishable from every input-driven
failure. -/
theorem unknown_id_type_internal_error (id : Option Url) (m : validationMode) :
    (¬ knownIdType m.options.idType → ValidateSpiffeIDURL id m ≠ VResult.ok) ∧
    (¬ knownIdType m.options.idType → ∀ u, id = some u → structurallyWellFormed u →
        (m.options.trustDomainRequired = true →
          m.options.trustDomain ≠ "" ∧ u.host = m.options.trustDomain) →
        ValidateSpiffeIDURL id m =
          VResult.err (VErr.validation u (kindOf m.options.idType)
            (Reason.internalUnhandled m.options.idType)) ∧
        isInternalResult (ValidateSpiffeIDURL id m) = true) ∧
    (knownIdType m.options.idType →
        isInternalResult (ValidateSpiffeIDURL id m) = false) := by
  refine ⟨fun hk => ?_, fun hk u hu hw htd => ?_, fun hk => ?_⟩
  · cases id with
    | none => rw [ValidateSpiffeIDURL]; exact validationError_ne_ok none _ _
    | some u =>
      rw [ValidateSpiffeIDURL]
      simp only [validationMode.validationOptions]
      by_cases h1 : u = Url.zero
      · rw [if_pos h1]; exact validationError_ne_ok (some u) _ _
      · rw [if_neg h1]
        by_cases h2 : u.scheme ≠ "spiffe"
        · rw [if_pos h2]; exact validationError_ne_ok (some u) _ _
        · rw [if_neg h2]
          by_cases h3 : u.hasUser = true
          · rw [if_pos h3]; exact validationError_ne_ok (some u) _ _
          · rw [if_neg h3]
            by_cases h4 : u.host = ""
            · rw [if_pos h4]; exact validationError_ne_ok (some u) _ _
            · rw [if_neg h4]
              by_cases h5 : u.port ≠ ""
              · rw [if_pos h5]; exact validationError_ne_ok (some u) _ _
              · rw [if_neg h5]
                by_cases h6 : u.fragment ≠ ""
                · rw [if_pos h6]; exact validationError_ne_ok (some u) _ _
                · rw [if_neg h6]
                  by_cases h7 : u.rawQuery ≠ ""
                  · rw [if_pos h7]; exact validationError_ne_ok (some u) _ _
                  · rw [if_neg h7]
                    by_cases h8 : m.options.trustDomainRequired = true ∧ m.options.trustDomain = ""
                    · rw [if_pos h8]; exact fun h => VResult.noConfusion h
                    · rw [if_neg h8]
                      by_cases h9 : m.options.trustDomainRequired = true ∧
                        u.host ≠ m.options.trustDomain
                      · rw [if_pos h9]; exact fun h => VResult.noConfusion h
                      · rw [if_neg h9]
                        rw [if_neg (fun h => hk (Or.inl h)),
                          if_neg (fun h => hk (Or.inr (Or.inl h))),
                          if_neg (fun h => hk (Or.inr (Or.inr (Or.inl h)))),
                          if_neg (fun h => hk (Or.inr (Or.inr (Or.inr (Or.inr h))))),
                          if_neg (fun h => hk (Or.inr (Or.inr (Or.inr (Or.inl h)))))]
                        exact validationError_ne_ok (some u) _ _
  · subst hu
    obtain ⟨h1, h2, h3, h4, h5, h6, h7⟩ := hw
    have heq : ValidateSpiffeIDURL (some u) m =
        VResult.err (VErr.validation u (kindOf m.options.idType)
          (Reason.internalUnhandled m.options.idType)) := by
      rw [ValidateSpiffeIDURL]
      simp only [validationMode.validationOptions]
      rw [if_neg h1, if_neg (not_not_intro h2), if_neg (bool_ne_true h3), if_neg h4,
        if_neg (not_not_intro h5), if_neg (not_not_intro h6), if_neg (not_not_intro h7),
        if_neg (fun hc => (htd hc.1).1 hc.2),
        if_neg (fun hc => hc.2 (htd hc.1).2),
        if_neg (fun h => hk (Or.inl h)),
        if_neg (fun h => hk (Or.inr (Or.inl h))),
        if_neg (fun h => hk (Or.inr (Or.inr (Or.inl h)))),
        if_neg (fun h => hk (Or.inr (Or.inr (Or.inr (Or.inr h))))),
        if_neg (fun h => hk (Or.inr (Or.inr (Or.inr (Or.inl h)))))]
      rfl
    exact ⟨heq, by rw [heq]; rfl⟩
  · cases id with
    | none => rfl
    | some u =>
      rw [ValidateSpiffeIDURL]
      simp only [validationMode.validationOptions]
      by_cases h1 : u = Url.zero
      · rw [if_pos h1]; rfl
      · rw [if_neg h1]
        by_cases h2 : u.scheme ≠ "spiffe"
        · rw [if_pos h2]; rfl
        · rw [if_neg h2]
          by_cases h3 : u.hasUser = true
          · rw [if_pos h3]; rfl
          · rw [if_neg h3]
            by_cases h4 : u.host = ""
            · rw [if_pos h4]; rfl
            · rw [if_neg h4]
              by_cases h5 : u.port ≠ ""
              · rw [if_pos h5]; rfl
              · rw [if_neg h5]
                by_cases h6 : u.fragment ≠ ""
                · rw [if_pos h6]; rfl
                · rw [if_neg h6]
                  by_cases h7 : u.rawQuery ≠ ""
                  · rw [if_pos h7]; rfl
                  · rw [if_neg h7]
                    by_cases h8 : m.options.trustDomainRequired = true ∧ m.options.trustDomain = ""
                    · rw [if_pos h8]; rfl
                    · rw [if_neg h8]
                      by_cases h9 : m.options.trustDomainRequired = true ∧
                        u.host ≠ m.options.trustDomain
                      · rw [if_pos h9]; rfl
                      · rw [if_neg h9]
                        by_cases t0 : m.options.idType = anyId
                        · rw [if_pos t0]; rfl
                        · rw [if_neg t0]
                          by_cases t1 : m.options.idType = trustDomainId
                          · rw [if_pos t1]
                            by_cases p1 : u.path ≠ ""
                            · rw [if_pos p1]; rfl
                            · rw [if_neg p1]; rfl
                          · rw [if_neg t1]
                            by_cases t2 : m.options.idType = workloadId
                            · rw [if_pos t2]
                              by_cases p2 : u.path = ""
                              · rw [if_pos p2]; rfl
                              · rw [if_neg p2]
                                by_cases r2 : isReservedPath u.path = true
                                · rw [if_pos r2]; rfl
                                · rw [if_neg r2]; rfl
                            · rw [if_neg t2]
                              by_cases t3 : m.options.idType = serverId
                              · rw [if_pos t3]
                                by_cases p3 : u.path = ""
                                · rw [if_pos p3]; rfl
                                · rw [if_neg p3]
                                  by_cases r3 : ¬ isServerPath u.path = true
                                  · rw [if_pos r3]; rfl
                                  · rw [if_neg r3]; rfl
                              · rw [if_neg t3]
                                by_cases t4 : m.options.idType = agentId
                                · rw [if_pos t4]
                                  by_cases p4 : u.path = ""
                                  · rw [if_pos p4]; rfl
                                  · rw [if_neg p4]
                                    by_cases r4 : ¬ isAgentPath u.path = true
                                    · rw [if_pos r4]; rfl
                                    · rw [if_neg r4]; rfl
                                · exfalso
                                  simp only [knownIdType] at hk
                                  rcases hk with h | h | h | h | h
                                  · exact t0 h
                                  · exact t1 h
                                  · exact t2 h
                                  · exact t4 h
                                  · exact t3 h

set_option maxHeartbeats 2000000 in
/-- C7 (witness): under the out-of-range selector `7` (with a required
matching domain) a well-formed identity draws the internal error, and
under the known workload selector the resulting error is never the
internal one. -/
theorem unknown_id_type_internal_error_witness :
    ValidateSpiffeIDURL (some agentUrl)
        { options := { trustDomain := "example.com", trustDomainRequired := true, idType := 7 } } =
      VResult.err (VErr.validation agentUrl "" (Reason.internalUnhandled 7)) ∧
    ValidateSpiffeIDURL (some agentUrl)
        { options := { trustDomain := "example.com", trustDomainRequired := true, idType := 7 } } ≠
      VResult.ok ∧
    isInternalResult (ValidateSpiffeIDURL (some agentUrl) (AllowTrustDomainWorkload "x")) = false := by
  refine ⟨?_, ?_, ?_⟩
  · exact ((unknown_id_type_internal_error (some agentUrl)
      { options := { trustDomain := "example.com", trustDomainRequired := true, idType := 7 } }).2.1
      (by decide) agentUrl rfl (by decide) (fun _ => ⟨by decide, by decide⟩)).1
  · exact (unknown_id_type_internal_error (some agentUrl)
      { options := { trustDomain := "example.com", trustDomainRequired := true, idType := 7 } }).1
      (by decide)
  · exact (unknown_id_type_internal_error (some agentUrl)
      (AllowTrustDomainWorkload "x")).2.2 (by decide)

set_option maxHeartbeats 2000000 in
/-- C10: calling the validator with a nil `*url.URL` reaches the
`validationError` closure, whose `id.String()` call dereferences the
nil pointer — a runtime panic, modelled as `crash` — while the zero
(non-nil) URL value returns the "SPIFFE ID is empty" validation error
as documented. -/
theorem nil_url_crashes_zero_url_errors :
    ValidateSpiffeIDURL none AllowAny = VResult.crash ∧
    ValidateSpiffeIDURL (some Url.zero) AllowAny =
      VResult.err (VErr.validation Url.zero "" Reason.empty) := by
  constructor
  · rfl
  · decide

/-!
Embedding of `url.Parse` from Go's net/url package (Go 1.10 era, the
standard library the repository builds against), which `ParseSpiffeID`
calls before validating.  Go strings are byte strings; they are
modelled at character level, and a `%XX`-decoded byte is modelled as
the character of that code point — faithful on the ASCII inputs all
theorems below evaluate, and irrelevant to the scheme-level theorems,
which are decided before any unescaping. -/

/-- Splits a list at the first occurrence of `c` (`strings.Index`). -/
def splitFirst (c : Char) : List Char → Option (List Char × List Char)
  | [] => none
  | x :: xs =>
    if x = c then some ([], xs)
    else
      match splitFirst c xs with
      | some (pre, post) => some (x :: pre, post)
      | none => none

/-- net/url's `split(s, c, cutc)`: cut at the first occurrence of `c`,
dropping the separator when `cutc`. -/
def goSplit (s : List Char) (c : Char) (cutc : Bool) : List Char × List Char :=
  match splitFirst c s with
  | none => (s, [])
  | some (pre, post) => if cutc then (pre, post) else (pre, c :: post)

/-- Splits at the first occurrence of the pattern `pat`
(`strings.Index` with a multi-character pattern), returning the part
before the match and the suffix starting at the match. -/
def splitAtSeq (pat : List Char) : List Char → Option (List Char × List Char)
  | [] => if List.isPrefixOf pat [] then some ([], []) else none
  | c :: cs =>
    if List.isPrefixOf pat (c :: cs) then some ([], c :: cs)
    else
      match splitAtSeq pat cs with
      | some (pre, suf) => some (c :: pre, suf)
      | none => none

def containsChar (c : Char) (s : List Char) : Bool :=
  s.any (· = c)

/-- Result of net/url's `getscheme`: a hard error (colon at position
zero), no scheme (the whole input is a path), or a scheme plus the
remainder after the colon. -/
inductive SchemeRes where
  | fail
  | noScheme
  | found (scheme rest : List Char)
deriving DecidableEq, Repr

/-- `getscheme` from net/url: scan `[A-Za-z]` then `[A-Za-z0-9+-.]`
until a `':'`; any other character means no scheme. -/
def getschemeAux (acc : List Char) : List Char → SchemeRes
  | [] => SchemeRes.noScheme
  | c :: rest =>
    if ('a' ≤ c ∧ c ≤ 'z') ∨ ('A' ≤ c ∧ c ≤ 'Z') then getschemeAux (acc ++ [c]) rest
    else if ('0' ≤ c ∧ c ≤ '9') ∨ c = '+' ∨ c = '-' ∨ c = '.' then
      if acc = [] then SchemeRes.noScheme else getschemeAux (acc ++ [c]) rest
    else if c = ':' then
      if acc = [] then SchemeRes.fail else SchemeRes.found acc rest
    else SchemeRes.noScheme

def getscheme (s : List Char) : SchemeRes :=
  getschemeAux [] s

/-- ASCII lowering; `strings.ToLower` agrees with this on `getscheme`
output, which is drawn from `[A-Za-z0-9+-.]`. -/
def lowerChar (c : Char) : Char :=
  if 'A' ≤ c ∧ c ≤ 'Z' then Char.ofNat (c.toNat + 32) else c

def toLowerStr (s : List Char) : List Char :=
  s.map lowerChar

/-- The `encoding` enumeration of net/url (the constants used by
`Parse`). -/
inductive Encoding where
  | path
  | host
  | zone
  | userPassword
  | queryComponent
  | fragment
deriving DecidableEq, Repr

def ishex (c : Char) : Bool :=
  ('0' ≤ c ∧ c ≤ '9') ∨ ('a' ≤ c ∧ c ≤ 'f') ∨ ('A' ≤ c ∧ c ≤ 'F')

def unhex (c : Char) : Nat :=
  if '0' ≤ c ∧ c ≤ '9' then c.toNat - '0'.toNat
  else if 'a' ≤ c ∧ c ≤ 'f' then c.toNat - 'a'.toNat + 10
  else if 'A' ≤ c ∧ c ≤ 'F' then c.toNat - 'A'.toNat + 10
  else 0

/-- `shouldEscape(c, mode)` from net/url, over byte values.  The
byte sets are, in order: alphanumerics; the host/zone extras
`!$&'()*+,;=:[]<>"`; the unreserved marks `-_.~`; the reserved set
`$&+,/:;=?@` (with the per-mode sub-switch); the fragment extras
`!()*`. -/
def shouldEscape (b : Nat) (mode : Encoding) : Bool :=
  if (65 ≤ b ∧ b ≤ 90) ∨ (97 ≤ b ∧ b ≤ 122) ∨ (48 ≤ b ∧ b ≤ 57) then false
  else if (mode = Encoding.host ∨ mode = Encoding.zone) ∧
      b ∈ [33, 36, 38, 39, 40, 41, 42, 43, 44, 59, 61, 58, 91, 93, 60, 62, 34] then false
  else if b ∈ [45, 95, 46, 126] then false
  else if b ∈ [36, 38, 43, 44, 47, 58, 59, 61, 63, 64] then
    match mode with
    | Encoding.path => b = 63
    | Encoding.userPassword => b = 64 ∨ b = 47 ∨ b = 63 ∨ b = 58
    | Encoding.queryComponent => true
    | Encoding.fragment => false
    | _ => true
  else if mode = Encoding.fragment ∧ b ∈ [33, 40, 41, 42] then false
  else true

/-- `unescape(s, mode)` from net/url: validates and decodes `%XX`
escapes (host mode may only escape non-ASCII bytes except `%25`; zone
mode restricts to host-legal bytes except `%25` and space), maps `'+'`
to space in query components, and rejects host/zone bytes that would
need escaping. -/
def unescape : List Char → Encoding → Option (List Char)
  | [], _ => some []
  | c :: rest, mode =>
    if c = '%' then
      match rest with
      | h1 :: h2 :: rest2 =>
        if ishex h1 ∧ ishex h2 then
          if mode = Encoding.host ∧ unhex h1 < 8 ∧ ¬(h1 = '2' ∧ h2 = '5') then none
          else if mode = Encoding.zone ∧ ¬(h1 = '2' ∧ h2 = '5') ∧
              unhex h1 * 16 + unhex h2 ≠ 32 ∧
              shouldEscape (unhex h1 * 16 + unhex h2) Encoding.host then none
          else
            match unescape rest2 mode with
            | none => none
            | some out => some (Char.ofNat (unhex h1 * 16 + unhex h2) :: out)
        else none
      | _ => none
    else if c = '+' then
      match unescape rest mode with
      | none => none
      | some out => some ((if mode = Encoding.queryComponent then ' ' else '+') :: out)
    else
      if (mode = Encoding.host ∨ mode = Encoding.zone) ∧ c.toNat < 128 ∧
          shouldEscape c.toNat mode then none
      else
        match unescape rest mode with
        | none => none
        | some out => some (c :: out)

def hexDigitUpper (n : Nat) : Char :=
  if n < 10 then Char.ofNat (48 + n) else Char.ofNat (65 + (n - 10))

/-- UTF-8 encoding of one character, as byte values (Go strings are
byte strings; `escape` works bytewise). -/
def utf8BytesOfChar (c : Char) : List Nat :=
  let n := c.toNat
  if n < 128 then [n]
  else if n < 2048 then [192 + n / 64, 128 + n % 64]
  else if n < 65536 then [224 + n / 4096, 128 + (n / 64) % 64, 128 + n % 64]
  else [240 + n / 262144, 128 + (n / 4096) % 64, 128 + (n / 64) % 64, 128 + n % 64]

def utf8Encode : List Char → List Nat
  | [] => []
  | c :: rest => utf8BytesOfChar c ++ utf8Encode rest

/-- `escape(s, mode)` from net/url: `%XX` (uppercase hex) for bytes
that need escaping, `'+'` for a space in query components. -/
def escapeList : List Nat → Encoding → List Char
  | [], _ => []
  | b :: rest, mode =>
    (if shouldEscape b mode then
      if b = 32 ∧ mode = Encoding.queryComponent then ['+']
      else ['%', hexDigitUpper (b / 16), hexDigitUpper (b % 16)]
    else [Char.ofNat b]) ++ escapeList rest mode

def escapeStr (s : List Char) (mode : Encoding) : List Char :=
  escapeList (utf8Encode s) mode

/-- `validOptionalPort` from net/url: empty, or `':'` followed by
decimal digits only. -/
def validOptionalPort : List Char → Bool
  | [] => true
  | c :: ds => if c = ':' then ds.all (fun d => '0' ≤ d ∧ d ≤ '9') else false

/-- `validUserinfo` from net/url (RFC 3986 §3.2.1 set). -/
def validUserinfo (s : List Char) : Bool :=
  s.all fun r =>
    ('A' ≤ r ∧ r ≤ 'Z') ∨ ('a' ≤ r ∧ r ≤ 'z') ∨ ('0' ≤ r ∧ r ≤ '9') ∨
      r ∈ ['-', '.', '_', ':', '~', '!', '$', '&', Char.ofNat 39, '(', ')', '*', '+',
        ',', ';', '=', '%', '@']

/-- `parseHost` from net/url: bracketed IP literal (with optional
RFC 6874 `%25` zone) or plain host, both with an optional valid port
suffix, unescaped in host mode. -/
def parseHost (host : List Char) : Option (List Char) :=
  if List.isPrefixOf ['['] host then
    match splitAtLast ']' host with
    | none => none
    | some (pre, post) =>
      if ¬ validOptionalPort post then none
      else
        match splitAtSeq ['%', '2', '5'] pre with
        | some (z1, z2) =>
          match unescape z1 Encoding.host with
          | none => none
          | some host1 =>
            match unescape z2 Encoding.zone with
            | none => none
            | some host2 =>
              match unescape (']' :: post) Encoding.host with
              | none => none
              | some host3 => some (host1 ++ host2 ++ host3)
        | none =>
          unescape host Encoding.host
  else
    match splitAtLast ':' host with
    | some (_, post) =>
      if ¬ validOptionalPort (':' :: post) then none
      else unescape host Encoding.host
    | none => unescape host Encoding.host

/-- `parseAuthority` from net/url; the `*Userinfo` result is tracked
through its presence (it is non-nil whenever an `'@'` occurs). -/
def parseAuthority (authority : List Char) : Option (Bool × List Char) :=
  match splitAtLast '@' authority with
  | none =>
    match parseHost authority with
    | none => none
    | some host => some (false, host)
  | some (userinfo, hostpart) =>
    match parseHost hostpart with
    | none => none
    | some host =>
      if ¬ validUserinfo userinfo then none
      else if ¬ containsChar ':' userinfo then
        match unescape userinfo Encoding.userPassword with
        | none => none
        | some _ => some (true, host)
      else
        match unescape (goSplit userinfo ':' true).1 Encoding.userPassword with
        | none => none
        | some _ =>
          match unescape (goSplit userinfo ':' true).2 Encoding.userPassword with
          | none => none
          | some _ => some (true, host)

/-- `(*URL).setPath` from net/url: `Path` is the unescaped path,
`RawPath` is kept only when the default re-escaping of `Path` does not
round-trip to the input. -/
def setPath (p : List Char) : Option (List Char × List Char) :=
  match unescape p Encoding.path with
  | none => none
  | some path => some (path, if escapeStr path Encoding.path = p then [] else p)

/-- The Go `parse` check "first path segment in URL cannot contain
colon": a `':'` occurs before any `'/'`. -/
def colonBeforeSlash : List Char → Bool
  | [] => false
  | c :: cs =>
    if c = ':' then true
    else if c = '/' then false
    else colonBeforeSlash cs

/-- The `ForceQuery`/`RawQuery` split at the start of net/url's
`parse`: a lone trailing `'?'` sets `ForceQuery`, otherwise the input
is cut at the first `'?'`. -/
def parseQuerySplit (rest0 : List Char) : List Char × Bool × List Char :=
  if List.isSuffixOf ['?'] rest0 ∧ ¬ containsChar '?' rest0.dropLast then
    (rest0.dropLast, true, [])
  else
    ((goSplit rest0 '?' true).1, false, (goSplit rest0 '?' true).2)

/-- The authority/path tail of net/url's `parse`: when the remainder
starts with `"//"` (and, for scheme-less input, not with `"///"`), cut
the authority at the next `'/'` and parse it; then set the path. -/
def parseAuthorityAndPath (scheme rest : List Char) (forceQuery : Bool)
    (rawQuery : List Char) : Option Url :=
  if (scheme ≠ [] ∨ ¬ List.isPrefixOf ['/', '/', '/'] rest) ∧
      List.isPrefixOf ['/', '/'] rest then
    match parseAuthority (goSplit (rest.drop 2) '/' false).1 with
    | none => none
    | some (hasUser, host) =>
      match setPath (goSplit (rest.drop 2) '/' false).2 with
      | none => none
      | some (p, rp) =>
        some { scheme := String.mk scheme, Opaque := "", hasUser := hasUser,
               host := String.mk host, path := String.mk p, rawPath := String.mk rp,
               forceQuery := forceQuery, rawQuery := String.mk rawQuery, fragment := "" }
  else
    match setPath rest with
    | none => none
    | some (p, rp) =>
      some { scheme := String.mk scheme, Opaque := "", hasUser := false, host := "",
             path := String.mk p, rawPath := String.mk rp, forceQuery := forceQuery,
             rawQuery := String.mk rawQuery, fragment := "" }

/-- The tail of net/url's `parse(rawurl, false)` after scheme
extraction and lowering: query split, opaque/rootless handling,
authority parsing, and path setting. -/
def parseAfterScheme (scheme rest0 : List Char) : Option Url :=
  match parseQuerySplit rest0 with
  | (rest1, forceQuery, rawQuery) =>
    if ¬ List.isPrefixOf ['/'] rest1 then
      if scheme ≠ [] then
        some { scheme := String.mk scheme, Opaque := String.mk rest1, hasUser := false,
               host := "", path := "", rawPath := "", forceQuery := forceQuery,
               rawQuery := String.mk rawQuery, fragment := "" }
      else if colonBeforeSlash rest1 then none
      else parseAuthorityAndPath scheme rest1 forceQuery rawQuery
    else parseAuthorityAndPath scheme rest1 forceQuery rawQuery

/-- net/url's `parse(rawurl, viaRequest := false)`: the `"*"` special
case, scheme extraction, scheme lowering, then the rest. -/
def parseMain (rawurl : List Char) : Option Url :=
  if rawurl = ['*'] then some { Url.zero with path := "*" }
  else
    match getscheme rawurl with
    | SchemeRes.fail => none
    | SchemeRes.noScheme => parseAfterScheme [] rawurl
    | SchemeRes.found sch rest => parseAfterScheme (toLowerStr sch) rest

/-- `url.Parse`: cut the fragment, run `parse`, then unescape and set
the fragment. -/
def urlParse (s : String) : Option Url :=
  match parseMain (goSplit s.toList '#' true).1 with
  | none => none
  | some url =>
    if (goSplit s.toList '#' true).2 = [] then some url
    else
      match unescape (goSplit s.toList '#' true).2 Encoding.fragment with
      | none => none
      | some f => some { url with fragment := String.mk f }

/-- Result of `ParseSpiffeID`: a parsed URL, a wrapped `url.Parse`
error (`"could not parse SPIFFE ID: %v"`), a validation error, or the
nil-dereference panic (unreachable here, since the validated URL is
never nil). -/
inductive PResult where
  | ok (u : Url)
  | parseError
  | validationFailure (e : VErr)
  | crash
deriving DecidableEq, Repr

/-- Embedding of `ParseSpiffeID` from `spiffeid.go`: `url.Parse`, then
`ValidateSpiffeIDURL` under the given mode. -/
def ParseSpiffeID (spiffeID : String) (mode : validationMode) : PResult :=
  match urlParse spiffeID with
  | none => PResult.parseError
  | some u =>
    match ValidateSpiffeIDURL (some u) mode with
    | VResult.ok => PResult.ok u
    | VResult.err e => PResult.validationFailure e
    | VResult.crash => PResult.crash

/-- Embedding of `ValidateSpiffeID` from `spiffeid.go` (parse and
discard the URL). -/
def ValidateSpiffeID (spiffeID : String) (mode : validationMode) : PResult :=
  ParseSpiffeID spiffeID mode

/-- The scheme component `url.Parse` assigns: the `getscheme` result
on the pre-fragment part, lowercased ("" when there is none). -/
def lowerSchemeOf (s : String) : String :=
  match getscheme (goSplit s.toList '#' true).1 with
  | SchemeRes.found sch _ => String.mk (toLowerStr sch)
  | _ => ""

/-- The raw (case-preserving) scheme component of the input string. -/
def rawSchemeOf (s : String) : String :=
  match getscheme (goSplit s.toList '#' true).1 with
  | SchemeRes.found sch _ => String.mk sch
  | _ => ""


/-- A successful validation implies the scheme field is `spiffe` (the
scheme check precedes every success path). -/
theorem validate_ok_scheme (u : Url) (m : validationMode)
    (h : ValidateSpiffeIDURL (some u) m = VResult.ok) : u.scheme = "spiffe" := by
  by_contra hs
  rw [ValidateSpiffeIDURL] at h
  simp only [validationMode.validationOptions] at h
  by_cases h1 : u = Url.zero
  · rw [if_pos h1] at h; exact validationError_ne_ok _ _ _ h
  · rw [if_neg h1, if_pos hs] at h; exact validationError_ne_ok _ _ _ h

/-- The authority/path tail never changes the scheme it is given. -/
theorem parseAuthorityAndPath_scheme (sch rest : List Char) (fq : Bool) (rq : List Char)
    (u : Url) (h : parseAuthorityAndPath sch rest fq rq = some u) :
    u.scheme = String.mk sch := by
  unfold parseAuthorityAndPath at h
  split at h
  · split at h
    · exact Option.noConfusion h
    · split at h
      · exact Option.noConfusion h
      · cases h; rfl
  · split at h
    · exact Option.noConfusion h
    · cases h; rfl

/-- `parse` never changes the scheme after extracting it. -/
theorem parseAfterScheme_scheme (sch rest : List Char) (u : Url)
    (h : parseAfterScheme sch rest = some u) : u.scheme = String.mk sch := by
  unfold parseAfterScheme at h
  rcases hq : parseQuerySplit rest with ⟨rest1, fq2, rq2⟩
  rw [hq] at h
  simp only [] at h
  by_cases hpre : List.isPrefixOf ['/'] rest1 = true
  · rw [if_neg (not_not_intro hpre)] at h
    exact parseAuthorityAndPath_scheme _ _ _ _ _ h
  · rw [if_pos hpre] at h
    by_cases hsch : sch ≠ []
    · rw [if_pos hsch] at h
      cases h; rfl
    · rw [if_neg hsch] at h
      by_cases hc : colonBeforeSlash rest1 = true
      · rw [if_pos hc] at h; exact Option.noConfusion h
      · rw [if_neg hc] at h
        exact parseAuthorityAndPath_scheme _ _ _ _ _ h

/-- The `Scheme` field of a successfully parsed URL is the lowercased
raw scheme of the input. -/
theorem urlParse_scheme (s : String) (u : Url) (h : urlParse s = some u) :
    u.scheme = lowerSchemeOf s := by
  unfold urlParse at h
  cases hp : parseMain (goSplit s.toList '#' true).1 with
  | none => rw [hp] at h; exact Option.noConfusion h
  | some url =>
    rw [hp] at h
    simp only [] at h
    have hsch : url.scheme = lowerSchemeOf s := by
      unfold parseMain at hp
      unfold lowerSchemeOf
      by_cases hstar : (goSplit s.toList '#' true).1 = ['*']
      · rw [if_pos hstar] at hp
        rw [hstar]
        cases hp
        rfl
      · rw [if_neg hstar] at hp
        cases hg : getscheme (goSplit s.toList '#' true).1 with
        | fail => rw [hg] at hp; exact Option.noConfusion hp
        | noScheme =>
          rw [hg] at hp
          rw [parseAfterScheme_scheme [] (goSplit s.toList '#' true).1 url hp]
        | found sch rest =>
          rw [hg] at hp
          rw [parseAfterScheme_scheme (toLowerStr sch) rest url hp]
    by_cases hfrag : (goSplit s.toList '#' true).2 = []
    · rw [if_pos hfrag] at h
      cases h
      exact hsch
    · rw [if_neg hfrag] at h
      cases hu2 : unescape (goSplit s.toList '#' true).2 Encoding.fragment with
      | none => rw [hu2] at h; exact Option.noConfusion h
      | some f =>
        rw [hu2] at h
        cases h
        exact hsch


/-- C2 (amended): for every validation mode, `ParseSpiffeID` fails on
every input string whose scheme component, after the lowercase
normalization `url.Parse` applies, does not equal `"spiffe"` — in
particular on every string not beginning with a case variant of
`spiffe`.  (The comparison in the validator is exact, but it runs on
the normalized scheme.) -/
theorem parse_fails_unless_lower_scheme_spiffe (s : String) (m : validationMode) (u : Url)
    (h : lowerSchemeOf s ≠ "spiffe") :
    ParseSpiffeID s m ≠ PResult.ok u := by
  intro hp
  unfold ParseSpiffeID at hp
  cases hu : urlParse s with
  | none => rw [hu] at hp; exact PResult.noConfusion hp
  | some u2 =>
    rw [hu] at hp
    simp only [] at hp
    cases hv : ValidateSpiffeIDURL (some u2) m with
    | ok =>
      exact h (by rw [← urlParse_scheme s u2 hu]; exact validate_ok_scheme u2 m hv)
    | err e => rw [hv] at hp; exact PResult.noConfusion hp
    | crash => rw [hv] at hp; exact PResult.noConfusion hp

/-- What Go's `url.Parse` produces for `SPIFFE://example.com/foo`:
the scheme is lowercase-normalized. -/
def fooUrl : Url :=
  { scheme := "spiffe", Opaque := "", hasUser := false, host := "example.com",
    path := "/foo", rawPath := "", forceQuery := false, rawQuery := "", fragment := "" }

/-- C2 (counterexample): `SPIFFE://example.com/foo` does not begin
with `spiffe` and its raw scheme component `SPIFFE` differs from
`spiffe` under a case-sensitive comparison, yet `ParseSpiffeID`
succeeds on it, because `url.Parse` lowercases the scheme before the
validator's exact comparison. -/
theorem uppercase_scheme_accepted :
    ParseSpiffeID "SPIFFE://example.com/foo" AllowAny = PResult.ok fooUrl ∧
    rawSchemeOf "SPIFFE://example.com/foo" = "SPIFFE" ∧
    hasPrefixStr "spiffe" "SPIFFE://example.com/foo" = false := by
  refine ⟨?_, ?_, ?_⟩ <;> decide

/-- C2 (witness): the amended theorem applied to `http://example.com/x`. -/
theorem parse_fails_witness :
    lowerSchemeOf "http://example.com/x" ≠ "spiffe" ∧
    ParseSpiffeID "http://example.com/x" AllowAny ≠ PResult.ok httpUrl := by
  constructor
  · decide
  · exact parse_fails_unless_lower_scheme_spiffe "http://example.com/x" AllowAny httpUrl (by decide)

/-!
The disk upstream-CA signing pipeline.  Its implementation
(`pkg/server/plugin/upstreamca/disk/disk.go`) is not under `src/` —
only its test file is — so the pipeline is modelled from the spec
(§4.3–§4.4, §7): the definitions below carry `Modelled from the spec:`
comments and use abstract stand-ins for the cryptographic primitives,
which are also not part of the available source. -/

/-- Modelled from the spec: `CaKeyMaterial` (§4.3/§2) — the loaded
signing key and certificate with the trust domain and TTL of the
`CaConfiguration` that produced it.  Key and certificate are abstract
handles (`Nat`); the real PEM/crypto loading code is not in `src/`. -/
structure CaKeyMaterial where
  trustDomain : String
  ttl : Nat
  key : Nat
  cert : Nat
deriving DecidableEq, Repr

/-- Modelled from the spec: the disk plugin instance; `config = none`
before any successful `Configure` (§4.4 precondition). -/
structure DiskPlugin where
  config : Option CaKeyMaterial
deriving DecidableEq, Repr

/-- Modelled from the spec: a decoded CSR (§3 SigningRequest, §4.4
step 1) — an embedded public key, the to-be-signed body, and the
self-signature. -/
structure CertificateRequest where
  publicKey : Nat
  body : List Nat
  signature : Nat
deriving DecidableEq, Repr

/-- Modelled from the spec: CSR self-signature verification (§4.4
step 2).  The cryptographic check is abstracted to a deterministic
checksum relation between public key, body and signature; what the
claims use is only that it partitions CSRs into accepted and
rejected. -/
def checkSignature (pub : Nat) (body : List Nat) (sig : Nat) : Bool :=
  sig = pub + body.foldl (fun a b => a + b) 0

/-- Modelled from the spec: CSR decoding (§4.4 step 1, §6 "binary
encoded single block").  The encoding is a length-prefixed block: a
truncated or overlong body fails to decode. -/
def decodeCSR (bytes : List Nat) : Option CertificateRequest :=
  match bytes with
  | pub :: sig :: n :: body =>
    if body.length = n then some { publicKey := pub, body := body, signature := sig }
    else none
  | _ => none

/-- Modelled from the spec: the signed leaf certificate (§4.4 step 3):
subject, issuer, fresh serial, validity window, CA signature. -/
structure SignedCert where
  subject : List Nat
  issuer : Nat
  serial : Nat
  notBefore : Nat
  notAfter : Nat
  signature : Nat
deriving DecidableEq, Repr

/-- Modelled from the spec: the CA's signature over the derived leaf
fields (§4.4 step 4), abstracted to a deterministic function of the
CA key and the signed fields. -/
def signLeaf (key : Nat) (subject : List Nat) (serial notBefore notAfter : Nat) : Nat :=
  key + subject.foldl (fun a b => a + b) 0 + serial + notBefore + notAfter

/-- The failure taxonomy of §4.4/§7 for `SubmitCSR`. -/
inductive SubmitErr where
  | notConfigured
  | decodeError
  | invalidSignature
deriving DecidableEq, Repr

/-- Modelled from the spec: `SubmitCSR` (§4.4) — not-configured check,
decode, self-signature verification, leaf derivation with validity
`[now, now + TTL]`, CA signing.  The request time `now` and the
freshly generated serial are passed as parameters (the model's view of
the clock and the randomness source). -/
def SubmitCSR (m : DiskPlugin) (now serial : Nat) (csr : List Nat) :
    Except SubmitErr SignedCert :=
  match m.config with
  | none => Except.error SubmitErr.notConfigured
  | some km =>
    match decodeCSR csr with
    | none => Except.error SubmitErr.decodeError
    | some req =>
      if checkSignature req.publicKey req.body req.signature then
        Except.ok { subject := req.body, issuer := km.cert, serial := serial,
                    notBefore := now, notAfter := now + km.ttl,
                    signature := signLeaf km.key req.body serial now (now + km.ttl) }
      else Except.error SubmitErr.invalidSignature

/-- Spec-side (§4.4 step 5, §7): a returned certificate is complete —
issued by the active key material, with the full validity window and a
signature by the CA key over exactly its fields; nothing is partial or
placeholder. -/
def completeCert (km : CaKeyMaterial) (now : Nat) (c : SignedCert) : Prop :=
  c.issuer = km.cert ∧ c.notBefore = now ∧ c.notAfter = now + km.ttl ∧
    c.signature = signLeaf km.key c.subject c.serial c.notBefore c.notAfter

instance (km : CaKeyMaterial) (now : Nat) (c : SignedCert) :
    Decidable (completeCert km now c) := by
  unfold completeCert; infer_instance

/-- C8: `SubmitCSR` returns either a certificate or an error, never
both; every returned certificate is complete for the active key
material; a CSR that fails to decode (truncated encoding) or whose
self-signature does not verify (tampering) yields an error and no
certificate; and an unconfigured plugin yields the not-configured
error. -/
theorem submitCSR_err_or_complete (m : DiskPlugin) (now serial : Nat) (csr : List Nat) :
    ((∃ c, SubmitCSR m now serial csr = Except.ok c) ∨
      (∃ e, SubmitCSR m now serial csr = Except.error e)) ∧
    (∀ c, SubmitCSR m now serial csr = Except.ok c →
      ∃ km, m.config = some km ∧ completeCert km now c) ∧
    (∀ km, m.config = some km → decodeCSR csr = none →
      SubmitCSR m now serial csr = Except.error SubmitErr.decodeError) ∧
    (∀ km req, m.config = some km → decodeCSR csr = some req →
      checkSignature req.publicKey req.body req.signature = false →
      SubmitCSR m now serial csr = Except.error SubmitErr.invalidSignature) ∧
    (m.config = none → SubmitCSR m now serial csr = Except.error SubmitErr.notConfigured) := by
  refine ⟨?_, ?_, ?_, ?_, ?_⟩
  · cases hr : SubmitCSR m now serial csr with
    | ok c => exact Or.inl ⟨c, rfl⟩
    | error e => exact Or.inr ⟨e, rfl⟩
  · intro c hc
    unfold SubmitCSR at hc
    cases hm : m.config with
    | none => rw [hm] at hc; exact Except.noConfusion hc
    | some km =>
      rw [hm] at hc
      simp only [] at hc
      refine ⟨km, rfl, ?_⟩
      cases hd : decodeCSR csr with
      | none => rw [hd] at hc; exact Except.noConfusion hc
      | some req =>
        rw [hd] at hc
        simp only [] at hc
        by_cases hs : checkSignature req.publicKey req.body req.signature = true
        · rw [if_pos hs] at hc
          cases hc
          exact ⟨rfl, rfl, rfl, rfl⟩
        · rw [if_neg hs] at hc
          exact Except.noConfusion hc
  · intro km hm hd
    unfold SubmitCSR
    rw [hm, hd]
  · intro km req hm hd hs
    unfold SubmitCSR
    rw [hm, hd]
    simp only []
    rw [if_neg (by rw [hs]; exact Bool.noConfusion)]
  · intro hm
    unfold SubmitCSR
    rw [hm]

/-- A concrete configured plugin for the witness. -/
def kmW : CaKeyMaterial :=
  { trustDomain := "example.com", ttl := 3600, key := 5, cert := 6 }

/-- C8 (witness): with a configured plugin, a well-formed CSR yields a
complete certificate, a truncated CSR yields the decode error, and a
tampered self-signature yields the signature error. -/
theorem submitCSR_err_or_complete_witness :
    (∃ km, DiskPlugin.config { config := some kmW } = some km ∧
      completeCert km 100 { subject := [7, 8], issuer := 6, serial := 42,
                            notBefore := 100, notAfter := 3700,
                            signature := 5 + 15 + 42 + 100 + 3700 }) ∧
    SubmitCSR { config := some kmW } 100 42 [2, 17, 5, 7, 8] =
      Except.error SubmitErr.decodeError ∧
    SubmitCSR { config := some kmW } 100 42 [2, 16, 2, 7, 8] =
      Except.error SubmitErr.invalidSignature ∧
    SubmitCSR { config := none } 100 42 [2, 17, 2, 7, 8] =
      Except.error SubmitErr.notConfigured := by
  refine ⟨?_, ?_, ?_, ?_⟩
  · exact (submitCSR_err_or_complete { config := some kmW } 100 42 [2, 17, 2, 7, 8]).2.1
      { subject := [7, 8], issuer := 6, serial := 42, notBefore := 100, notAfter := 3700,
        signature := 5 + 15 + 42 + 100 + 3700 } rfl
  · exact (submitCSR_err_or_complete { config := some kmW } 100 42 [2, 17, 5, 7, 8]).2.2.1
      kmW rfl (by decide)
  · exact (submitCSR_err_or_complete { config := some kmW } 100 42 [2, 16, 2, 7, 8]).2.2.2.1
      kmW { publicKey := 2, body := [7, 8], signature := 16 } rfl (by decide) (by decide)
  · exact (submitCSR_err_or_complete { config := none } 100 42 [2, 17, 2, 7, 8]).2.2.2.2 rfl

end Spire



